import Mathlib

/-!
Verification of the athleticAI frame-extraction-and-upload pipeline.

The development shallowly embeds the two extraction strategies and the
server processing job of the repository:

* `extractVideoFrames` (src/lib/video-processing.ts) — the client-side
  seek-sample strategy, embedded as a pure function over exact rational
  arithmetic; the browser environment (whether `canvas.toBlob` yields a
  blob for a given iteration) is a parameter.
* `POST` (the process-video route) — the server-side decode-pipe job,
  embedded as a pure function from an environment (outcomes of every
  effectful step: JSON parse, fetch, mkdtemp, writeFile, ffmpeg,
  directory listing, per-key upload, blob deletion, workspace removal)
  to the HTTP response together with a trace of the resource-management
  events the job performed.
* `clientProcessVideo` (the HomePage video flow): frame extraction at
  fps 30, per-frame upload, best-effort source deletion, and the final
  per-file state update.
-/

/-! ## Definitions -/

/-- One extracted frame as pushed by the `toBlob` callback:
`frames.push({ blob, timestamp: video.currentTime, frameNumber: frameNumber + 1 })`.
The raw image bytes are not modelled. -/
structure ExtractedFrame where
  timestamp : ℚ
  frameNumber : Nat
deriving DecidableEq, Repr

/-- The seek/encode loop of `extractVideoFrames`.

Source loop state: `frameNumber` and `currentTime`, with termination guard
`frameNumber >= totalFramesToExtract || currentTime >= duration`.
Here `rem` is `totalFramesToExtract - frameNumber`, so the clause
`rem = 0` is exactly the guard `frameNumber >= totalFramesToExtract`
(the loop is always entered with `rem = total - frameNumber`).
Each iteration seeks to `Math.min(currentTime, duration - 0.001)`; the
`onseeked` handler draws the frame and calls `canvas.toBlob`, whose
callback pushes a frame when the canvas yielded a blob (the source guards
the push with `if (blob)`; the environment parameter `toBlob` tells
whether iteration `i` yielded one), then increments `frameNumber` and
advances `currentTime` by the frame interval `1 / fps`. -/
def extractLoop (duration fps : ℚ) (toBlob : Nat → Bool) :
    (rem frameNumber : Nat) → (currentTime : ℚ) → List ExtractedFrame
  | 0, _, _ => []
  | rem + 1, frameNumber, currentTime =>
    if duration ≤ currentTime then []
    else if toBlob frameNumber then
      ⟨min currentTime (duration - 1/1000), frameNumber + 1⟩ ::
        extractLoop duration fps toBlob rem (frameNumber + 1) (currentTime + 1 / fps)
    else extractLoop duration fps toBlob rem (frameNumber + 1) (currentTime + 1 / fps)
termination_by structural rem => rem

/-- `totalFramesToExtract = Math.min(Math.ceil(duration * fps), maxFrames)`. -/
def totalFramesToExtract (duration fps : ℚ) (maxFrames : Nat) : Nat :=
  min ⌈duration * fps⌉₊ maxFrames

/-- `extractVideoFrames(videoFile, { fps, maxFrames, quality })`.
`duration` is the metadata duration of the video; `toBlob i` tells whether
the canvas produced a blob at iteration `i`. The JPEG quality factor
affects only the image bytes, which are not modelled. -/
def extractVideoFrames (duration fps : ℚ) (maxFrames : Nat)
    (toBlob : Nat → Bool) : List ExtractedFrame :=
  extractLoop duration fps toBlob (totalFramesToExtract duration fps maxFrames) 0 0

/-- The distinctions among error payloads that the route itself creates:
`missingUrl` is the 400 `Missing "url" in request body`; `invalidUrl` is
the thrown `Invalid URL format: ${url}`; `fetchFailed` is the thrown
`Failed to fetch video. HTTP ${status}: ${statusText}. URL: ${url}`;
`envError` stands for the message of an error thrown by a collaborator
(JSON parsing, network stack, fs, ffmpeg, blob store) and rethrown by the
catch-all handler. -/
inductive ErrMsg where
  | missingUrl
  | invalidUrl (url : String)
  | fetchFailed (status : Nat) (statusText : String) (url : String)
  | envError
deriving DecidableEq, Repr

/-- The JSON value returned by the route: either the success payload
`{ frames, metadata: { framesExtracted, outputFolder, fps } }` (the
`originalVideoSize` string is carried as the raw byte count), or an error
payload with its HTTP status code. -/
inductive Response where
  | ok (frames : List String) (framesExtracted : Nat) (originalVideoSize : Nat)
      (outputFolder : String) (fps : ℚ)
  | err (status : Nat) (msg : ErrMsg)
deriving DecidableEq, Repr

/-- Trace of the resource-management events performed by one run of the
route: how often `fs.mkdtemp` and `fs.rm` ran, which blob keys `put` was
invoked for (in invocation order), and whether `del` was invoked on the
source video. -/
structure Trace where
  mkdtempCalls : Nat
  rmCalls : Nat
  uploadedKeys : List String
  delCalls : Nat
deriving DecidableEq, Repr

/-- Environment of one run of the route: the request body after
destructuring defaults (`outputFolder = 'frames'`, `fps = 1`; a missing
`url` is the empty string, matching the `!url` check) and the outcome of
every effectful collaborator call. `ffmpeg` yields the number of frame
files the decoder wrote (or a thrown decode error); `readdirFiles` is the
directory listing that `fs.readdir` returns, in the order the OS reports
it; `putResult` maps a blob key to the URL `put` resolves with, or to a
thrown upload error; `delResult` is the outcome of `del(url)`;
`sourceDuration` is the duration of the fetched video — the route never
inspects it, which is what makes duration-dependent claims about the
route decidable only against this field. -/
structure ServerEnv where
  jsonOk : Bool
  url : String
  outputFolder : String
  fps : ℚ
  urlValid : Bool
  fetchThrows : Bool
  fetchStatus : Nat
  fetchStatusText : String
  videoSizeBytes : Nat
  sourceDuration : ℚ
  mkdtempOk : Bool
  writeFileOk : Bool
  ffmpeg : Except Unit Nat
  readdirFiles : List String
  putResult : String → Except Unit String
  delResult : Except Unit Unit
  rmOk : Bool

/-- `Response.ok` of the fetch API: status in the range 200–299. -/
def responseOk (status : Nat) : Bool := 200 ≤ status && status < 300

/-- Zero-padding of the ffmpeg output pattern `frame_%05d.jpg`: pad the
decimal representation with leading zeros to at least five digits. -/
def pad5 (i : Nat) : String :=
  String.mk (List.replicate (5 - (toString i).length) '0') ++ toString i

/-- Name of the `i`-th frame file written by ffmpeg under the output
pattern `frame_%05d.jpg`. -/
def frameFileName (i : Nat) : String := "frame_" ++ pad5 i ++ ".jpg"

/-- The listing a well-behaved filesystem could report for the scratch
directory after ffmpeg wrote `n` frames: the saved source video
`input-video.mp4` and the `n` numbered frame files. `fs.readdir` gives no
ordering guarantee, so an environment's `readdirFiles` is only ever
assumed to be a permutation of this. -/
def expectedListing (n : Nat) : List String :=
  "input-video.mp4" :: (List.range n).map (fun i => frameFileName (i + 1))

/-- The filter `file.startsWith('frame_')` applied to the listing.
`String.startsWith` is byte-indexed and opaque to kernel reduction, so
the test is embedded as the extensionally equal character-list check. -/
def isFrameFile (f : String) : Bool := "frame_".data.isPrefixOf f.data

/-- The upload loop of the route. For each frame file, in listing order,
`put` is invoked on key `` `${outputFolder}/${file}` ``; a resolved `put`
appends `blob.url` to `frameUrls`, while a rejected `put` throws out of
the loop (there is no per-frame catch), so no later file is attempted.
Returns the keys `put` was invoked for together with either the collected
URLs or the thrown error. -/
def uploadLoop (putResult : String → Except Unit String) (outputFolder : String) :
    List String → List String × Except Unit (List String)
  | [] => ([], Except.ok [])
  | file :: rest =>
    let key := outputFolder ++ "/" ++ file
    match putResult key with
    | Except.error e => ([key], Except.error e)
    | Except.ok u =>
      let (keys, r) := uploadLoop putResult outputFolder rest
      (key :: keys,
        match r with
        | Except.error e => Except.error e
        | Except.ok urls => Except.ok (u :: urls))

/-- The best-effort deletion of the source video:
`try { await del(url) } catch (err) { console.warn(...) }`. Either
outcome of `del` is swallowed (the failure is only logged), so the step
produces no value the rest of the job could read. -/
def delAttempt (r : Except Unit Unit) : Unit :=
  match r with
  | Except.ok _ => ()
  | Except.error _ => ()

/-- The process-video `POST` handler, as a function from the environment
to the response and the resource trace. The ordering of the steps mirrors
the route: JSON parse, `!url` check, URL validation, fetch, `response.ok`
check, `mkdtemp`, `writeFile`, ffmpeg, `readdir` + filter, upload loop,
best-effort `del` of the source, response — with the catch-all mapping
any thrown fault to a 500, and the `finally` block removing the scratch
directory (inside its own try/catch) whenever `tmpDir` was assigned. -/
def POST (env : ServerEnv) : Response × Trace :=
  if !env.jsonOk then (Response.err 500 ErrMsg.envError, ⟨0, 0, [], 0⟩)
  else if env.url = "" then (Response.err 400 ErrMsg.missingUrl, ⟨0, 0, [], 0⟩)
  else if !env.urlValid then
    (Response.err 500 (ErrMsg.invalidUrl env.url), ⟨0, 0, [], 0⟩)
  else if env.fetchThrows then (Response.err 500 ErrMsg.envError, ⟨0, 0, [], 0⟩)
  else if !responseOk env.fetchStatus then
    (Response.err 500
      (ErrMsg.fetchFailed env.fetchStatus env.fetchStatusText env.url),
      ⟨0, 0, [], 0⟩)
  else if !env.mkdtempOk then (Response.err 500 ErrMsg.envError, ⟨0, 0, [], 0⟩)
  else if !env.writeFileOk then (Response.err 500 ErrMsg.envError, ⟨1, 1, [], 0⟩)
  else
    match env.ffmpeg with
    | Except.error _ => (Response.err 500 ErrMsg.envError, ⟨1, 1, [], 0⟩)
    | Except.ok _ =>
      match uploadLoop env.putResult env.outputFolder
        (env.readdirFiles.filter isFrameFile) with
      | (attempted, Except.error _) =>
        (Response.err 500 ErrMsg.envError, ⟨1, 1, attempted, 0⟩)
      | (attempted, Except.ok frameUrls) =>
        let _ := delAttempt env.delResult
        (Response.ok frameUrls frameUrls.length env.videoSizeBytes
          env.outputFolder env.fps, ⟨1, 1, attempted, 1⟩)

/-- A fully well-behaved environment for the route: every collaborator
call succeeds, ffmpeg decodes a 3-second source into two frame files, the
directory listing is reported in lexicographic order, and each `put`
resolves with the key itself as the durable URL. Claim-specific
environments below perturb single fields of this one. -/
def goodEnv : ServerEnv where
  jsonOk := true
  url := "https://blob.example/video.mp4"
  outputFolder := "frames"
  fps := 1
  urlValid := true
  fetchThrows := false
  fetchStatus := 200
  fetchStatusText := "OK"
  videoSizeBytes := 1000000
  sourceDuration := 3
  mkdtempOk := true
  writeFileOk := true
  ffmpeg := Except.ok 2
  readdirFiles := ["input-video.mp4", "frame_00001.jpg", "frame_00002.jpg"]
  putResult := fun k => Except.ok k
  delResult := Except.ok ()
  rmOk := true

/-- Environment whose fetch of the source video yields HTTP 404. -/
def fetch404Env : ServerEnv :=
  { goodEnv with fetchStatus := 404, fetchStatusText := "Not Found" }

/-- Environment in which the best-effort deletion of the source video
fails. -/
def delFailEnv : ServerEnv := { goodEnv with delResult := Except.error () }

/-- The `metadata` record stored on the uploaded file after client-side
processing. -/
structure ClientMetadata where
  originalVideoSize : Nat
  framesExtracted : Nat
  outputFolder : String
  fps : ℚ
deriving DecidableEq, Repr

/-- The fields of the `UploadedFile` entry that the video flow updates in
its final `setFiles` call. -/
structure UploadedFileState where
  processingFrames : Bool
  extractedFrames : List String
  metadata : ClientMetadata
  error : Option String
deriving DecidableEq, Repr

/-- Environment of the client video flow: the video's metadata duration
and byte size, whether the canvas yielded a blob at each extraction
iteration, whether the `/api/upload` response for the `i`-th frame was
`response.ok` and which URL it carried, and whether the
`/api/delete-blob` request succeeded. -/
structure ClientEnv where
  duration : ℚ
  fileSizeBytes : Nat
  toBlob : Nat → Bool
  uploadOk : Nat → Bool
  uploadUrl : Nat → String
  deleteOk : Bool

/-- The client per-frame upload loop over `frames.entries()`: for index
`i` the frame blob is posted to
`` /api/upload?filename=frames/frame_${String(i+1).padStart(3,'0')}.jpg ``;
when the response is ok its URL is pushed, and when it is not ok the
frame is skipped with no error recorded and the loop continues. -/
def clientUploadLoop (env : ClientEnv) :
    Nat → List ExtractedFrame → List String
  | _, [] => []
  | i, _ :: rest =>
    if env.uploadOk i then env.uploadUrl i :: clientUploadLoop env (i + 1) rest
    else clientUploadLoop env (i + 1) rest

/-- The HomePage video flow after a successful source upload: extract
frames at `fps: 30, maxFrames: 300`, upload each frame, attempt the
best-effort deletion of the source (its failure is caught and only
logged), then store the final state with `metadata.fps` hard-coded to
`2`. -/
def clientProcessVideo (env : ClientEnv) : UploadedFileState :=
  let frames := extractVideoFrames env.duration 30 300 env.toBlob
  let frameUrls := clientUploadLoop env 0 frames
  { processingFrames := false
    extractedFrames := frameUrls
    metadata :=
      { originalVideoSize := env.fileSizeBytes
        framesExtracted := frameUrls.length
        outputFolder := "frames"
        fps := 2 }
    error := none }

/-- Environment in which the `put` of the first frame file rejects and
the `put` of every other key resolves. -/
def firstPutFailsEnv : ServerEnv :=
  { goodEnv with
    putResult := fun k =>
      if k = "frames/frame_00001.jpg" then Except.error () else Except.ok k }

/-- Environment in which ffmpeg succeeds but writes zero frame files for
a 3-second source. -/
def zeroFramesEnv : ServerEnv :=
  { goodEnv with ffmpeg := Except.ok 0, readdirFiles := ["input-video.mp4"] }

/-- Environment whose directory listing is reported in an order that is
not lexicographic — `fs.readdir` guarantees no ordering. -/
def unsortedListingEnv : ServerEnv :=
  { goodEnv with
    readdirFiles := ["input-video.mp4", "frame_00002.jpg", "frame_00001.jpg"] }

/-! ## Theorems -/

theorem extractLoop_length (duration fps : ℚ) (toBlob : Nat → Bool)
    (htb : ∀ i, toBlob i = true) (hfps : 0 < fps) :
    ∀ rem k : Nat, k + rem ≤ ⌈duration * fps⌉₊ →
      (extractLoop duration fps toBlob rem k ((k : ℚ) / fps)).length = rem := by
  intro rem
  induction rem with
  | zero => intro k _; simp [extractLoop]
  | succ rem ih =>
    intro k hk
    have hklt : (k : ℚ) < duration * fps := by
      exact_mod_cast Nat.lt_ceil.mp (by omega)
    have hlt : (k : ℚ) / fps < duration := by
      rw [div_lt_iff₀ hfps]; exact hklt
    rw [extractLoop, if_neg (not_le.mpr hlt), if_pos (htb k)]
    have hstep : (k : ℚ) / fps + 1 / fps = ((k + 1 : Nat) : ℚ) / fps := by
      rw [div_add_div_same]; push_cast; ring_nf
    rw [List.length_cons, hstep, ih (k + 1) (by omega)]

theorem extractLoop_map_frameNumber (duration fps : ℚ) (toBlob : Nat → Bool)
    (htb : ∀ i, toBlob i = true) :
    ∀ (rem k : Nat) (t : ℚ),
      (extractLoop duration fps toBlob rem k t).map (fun f => f.frameNumber) =
        List.range' (k + 1) (extractLoop duration fps toBlob rem k t).length := by
  intro rem
  induction rem with
  | zero => intro k t; simp [extractLoop]
  | succ rem ih =>
    intro k t
    rw [extractLoop]
    by_cases h : duration ≤ t
    · simp [h]
    · rw [if_neg h, if_pos (htb k)]
      simp only [List.map_cons, List.length_cons, List.range'_succ]
      rw [ih (k + 1) (t + 1 / fps)]

theorem extractLoop_timestamp_lb (duration fps : ℚ) (toBlob : Nat → Bool)
    (hfps : 0 < fps) :
    ∀ (rem k : Nat) (t : ℚ) (f : ExtractedFrame),
      f ∈ extractLoop duration fps toBlob rem k t →
      min t (duration - 1/1000) ≤ f.timestamp := by
  intro rem
  induction rem with
  | zero => intro k t f h; simp [extractLoop] at h
  | succ rem ih =>
    intro k t f hf
    rw [extractLoop] at hf
    by_cases h : duration ≤ t
    · simp [h] at hf
    · rw [if_neg h] at hf
      have hstep : min t (duration - 1/1000) ≤ min (t + 1 / fps) (duration - 1/1000) := by
        refine min_le_min ?_ le_rfl
        have h1 : (0 : ℚ) ≤ 1 / fps := le_of_lt (by positivity)
        linarith
      by_cases hb : toBlob k = true
      · rw [if_pos hb] at hf
        rcases List.mem_cons.mp hf with h1 | h2
        · rw [h1]
        · exact le_trans hstep (ih (k + 1) (t + 1 / fps) f h2)
      · rw [if_neg hb] at hf
        exact le_trans hstep (ih (k + 1) (t + 1 / fps) f hf)

theorem extractLoop_timestamp_ub (duration fps : ℚ) (toBlob : Nat → Bool) :
    ∀ (rem k : Nat) (t : ℚ) (f : ExtractedFrame),
      f ∈ extractLoop duration fps toBlob rem k t →
      f.timestamp ≤ duration - 1/1000 := by
  intro rem
  induction rem with
  | zero => intro k t f h; simp [extractLoop] at h
  | succ rem ih =>
    intro k t f hf
    rw [extractLoop] at hf
    by_cases h : duration ≤ t
    · simp [h] at hf
    · rw [if_neg h] at hf
      by_cases hb : toBlob k = true
      · rw [if_pos hb] at hf
        rcases List.mem_cons.mp hf with h1 | h2
        · rw [h1]; exact min_le_right _ _
        · exact ih (k + 1) (t + 1 / fps) f h2
      · rw [if_neg hb] at hf
        exact ih (k + 1) (t + 1 / fps) f hf

theorem extractLoop_timestamps_sorted (duration fps : ℚ) (toBlob : Nat → Bool)
    (hfps : 0 < fps) :
    ∀ (rem k : Nat) (t : ℚ),
      List.Sorted (· ≤ ·)
        ((extractLoop duration fps toBlob rem k t).map (fun f => f.timestamp)) := by
  intro rem
  induction rem with
  | zero => intro k t; simp [extractLoop]
  | succ rem ih =>
    intro k t
    rw [extractLoop]
    by_cases h : duration ≤ t
    · simp [h]
    · rw [if_neg h]
      by_cases hb : toBlob k = true
      · rw [if_pos hb]
        simp only [List.map_cons]
        refine List.sorted_cons.mpr ⟨?_, ih (k + 1) (t + 1 / fps)⟩
        intro b hbmem
        rcases List.mem_map.mp hbmem with ⟨f, hf, rfl⟩
        have hlb := extractLoop_timestamp_lb duration fps toBlob hfps
          rem (k + 1) (t + 1 / fps) f hf
        have h1 : (0 : ℚ) ≤ 1 / fps := le_of_lt (by positivity)
        have h2 : min t (duration - 1/1000) ≤ min (t + 1 / fps) (duration - 1/1000) :=
          min_le_min (by linarith) le_rfl
        exact le_trans h2 hlb
      · rw [if_neg hb]
        exact ih (k + 1) (t + 1 / fps)

/-- C1: for every valid input (`duration ≥ 0`, `fps > 0`, `maxFrames ≥ 1`)
and a canvas that yields a blob at every iteration, `extractVideoFrames`
produces exactly `min(ceil(duration * fps), maxFrames)` frames, and that
number is `0` exactly when `duration = 0`. -/
theorem c1_frame_count (duration fps : ℚ) (maxFrames : Nat) (toBlob : Nat → Bool)
    (hd : 0 ≤ duration) (hfps : 0 < fps) (hmax : 0 < maxFrames)
    (htb : ∀ i, toBlob i = true) :
    (extractVideoFrames duration fps maxFrames toBlob).length =
      min ⌈duration * fps⌉₊ maxFrames ∧
    ((extractVideoFrames duration fps maxFrames toBlob).length = 0 ↔ duration = 0) := by
  have hlen : (extractVideoFrames duration fps maxFrames toBlob).length =
      min ⌈duration * fps⌉₊ maxFrames := by
    have h0 : ((0 : Nat) : ℚ) / fps = 0 := by simp
    have := extractLoop_length duration fps toBlob htb hfps
      (min ⌈duration * fps⌉₊ maxFrames) 0 (by simp)
    rw [h0] at this
    exact this
  refine ⟨hlen, ?_⟩
  rw [hlen]
  constructor
  · intro h
    rcases Nat.min_eq_zero_iff.mp h with h1 | h1
    · have h2 : duration * fps ≤ 0 := Nat.ceil_eq_zero.mp h1
      nlinarith
    · omega
  · intro h
    rw [h]
    simp

/-- C1 witness: a 3-second video sampled at `fps = 1` with
`maxFrames = 500` yields `min(ceil(3), 500) = 3` frames. -/
theorem c1_frame_count_witness :
    (extractVideoFrames 3 1 500 (fun _ => true)).length = min ⌈(3 : ℚ) * 1⌉₊ 500 ∧
    ((extractVideoFrames 3 1 500 (fun _ => true)).length = 0 ↔ (3 : ℚ) = 0) :=
  c1_frame_count 3 1 500 (fun _ => true) (by decide) (by decide) (by decide)
    (fun _ => rfl)

/-- C4: when the canvas yields a blob at every iteration, the ordinals
(`frameNumber`) of the frames produced by `extractVideoFrames`, read in
production order, are exactly `1, 2, ..., N` for `N` the number of frames
produced — contiguous, gap-free and duplicate-free. -/
theorem c4_frame_ordinals (duration fps : ℚ) (maxFrames : Nat) (toBlob : Nat → Bool)
    (htb : ∀ i, toBlob i = true) :
    (extractVideoFrames duration fps maxFrames toBlob).map (fun f => f.frameNumber) =
      List.range' 1 (extractVideoFrames duration fps maxFrames toBlob).length :=
  extractLoop_map_frameNumber duration fps toBlob htb
    (totalFramesToExtract duration fps maxFrames) 0 0

/-- C4 witness: the 3-second, `fps = 1` extraction yields ordinals
`[1, 2, 3]`. -/
theorem c4_frame_ordinals_witness :
    (extractVideoFrames 3 1 500 (fun _ => true)).map (fun f => f.frameNumber) =
      List.range' 1 (extractVideoFrames 3 1 500 (fun _ => true)).length :=
  c4_frame_ordinals 3 1 500 (fun _ => true) (fun _ => rfl)

/-- C5: for `fps > 0`, the timestamps of the frames emitted by
`extractVideoFrames` are monotonically non-decreasing in production
order, and every emitted frame's timestamp is strictly below the source
duration (the seek target is clamped to `duration - 0.001`). -/
theorem c5_timestamps (duration fps : ℚ) (maxFrames : Nat) (toBlob : Nat → Bool)
    (hfps : 0 < fps) :
    List.Sorted (· ≤ ·)
      ((extractVideoFrames duration fps maxFrames toBlob).map (fun f => f.timestamp)) ∧
    ∀ f ∈ extractVideoFrames duration fps maxFrames toBlob, f.timestamp < duration := by
  constructor
  · exact extractLoop_timestamps_sorted duration fps toBlob hfps
      (totalFramesToExtract duration fps maxFrames) 0 0
  · intro f hf
    have := extractLoop_timestamp_ub duration fps toBlob
      (totalFramesToExtract duration fps maxFrames) 0 0 f hf
    linarith

/-- C5 witness: the 3-second, `fps = 1` extraction has non-decreasing
timestamps, all strictly below 3. -/
theorem c5_timestamps_witness :
    List.Sorted (· ≤ ·)
      ((extractVideoFrames 3 1 500 (fun _ => true)).map (fun f => f.timestamp)) ∧
    ∀ f ∈ extractVideoFrames 3 1 500 (fun _ => true), f.timestamp < 3 :=
  c5_timestamps 3 1 500 (fun _ => true) (by decide)

/-- C2: on every execution of the route, the scratch workspace is removed
exactly as often as it is created — `fs.rm` runs exactly once whenever
`fs.mkdtemp` ran, on every exit path (success, upload failure, decode
failure, or any thrown fault), and never otherwise. -/
theorem c2_workspace_cleanup (env : ServerEnv) :
    (POST env).2.rmCalls = (POST env).2.mkdtempCalls ∧
    (POST env).2.mkdtempCalls ≤ 1 := by
  unfold POST
  (repeat' split) <;> exact ⟨rfl, by simp⟩

/-- C6: whenever the fetch of the source responds with a non-success
status, the job fails fatally with the fetch error message, the scratch
workspace is never created, and no frame upload is attempted. -/
theorem c6_fetch_failure (env : ServerEnv)
    (hjson : env.jsonOk = true) (hurl : env.url ≠ "")
    (hvalid : env.urlValid = true) (hnet : env.fetchThrows = false)
    (hbad : responseOk env.fetchStatus = false) :
    POST env =
      (Response.err 500
        (ErrMsg.fetchFailed env.fetchStatus env.fetchStatusText env.url),
       ⟨0, 0, [], 0⟩) := by
  simp [POST, hjson, hurl, hvalid, hnet, hbad]

/-- C6 witness: at a concrete environment whose fetch returns 404, the
route answers with the fetch-failure 500, creates no workspace and
attempts no upload. -/
theorem c6_fetch_failure_witness :
    POST fetch404Env =
      (Response.err 500
        (ErrMsg.fetchFailed 404 "Not Found" "https://blob.example/video.mp4"),
       ⟨0, 0, [], 0⟩) :=
  c6_fetch_failure fetch404Env rfl (by decide) rfl rfl rfl

theorem POST_del_cases (env : ServerEnv) :
    (POST env).2.delCalls = 0 ∨
    ∃ urls attempted, POST env =
      (Response.ok urls urls.length env.videoSizeBytes env.outputFolder env.fps,
       ⟨1, 1, attempted, 1⟩) := by
  unfold POST
  (repeat' split) <;>
    first
      | exact Or.inl rfl
      | exact Or.inr ⟨_, _, rfl⟩

/-- C9: the deletion of the original source from durable storage is
best-effort — the response of the route never depends on the outcome of
`del`, and every run that reaches the deletion step still answers with
the successful frame list. -/
theorem c9_source_deletion_best_effort (env : ServerEnv) :
    (POST { env with delResult := Except.error () }).1 =
      (POST { env with delResult := Except.ok () }).1 ∧
    ((POST env).2.delCalls = 1 →
      ∃ urls, (POST env).1 =
        Response.ok urls urls.length env.videoSizeBytes env.outputFolder env.fps) := by
  constructor
  · rfl
  · intro h
    rcases POST_del_cases env with h0 | ⟨urls, attempted, heq⟩
    · omega
    · exact ⟨urls, by rw [heq]⟩

/-- C9 witness: in a concrete run whose `del` fails, the deletion step is
reached and the route still answers with the successful frame list. -/
theorem c9_source_deletion_witness :
    ∃ urls, (POST delFailEnv).1 =
      Response.ok urls urls.length delFailEnv.videoSizeBytes
        delFailEnv.outputFolder delFailEnv.fps :=
  (c9_source_deletion_best_effort delFailEnv).2 (by decide)

/-- C3 counterexample: with two frame files on disk and only the first
upload failing, the route aborts — the second upload is never attempted
(`uploadedKeys` holds only the first key) and the job answers with a
total-failure 500 instead of a partial-success outcome with
`succeeded = 1, failed = 1`. -/
theorem c3_counterexample :
    (POST firstPutFailsEnv).1 = Response.err 500 ErrMsg.envError ∧
    (POST firstPutFailsEnv).2.uploadedKeys = ["frames/frame_00001.jpg"] := by
  refine ⟨by decide, by decide⟩

/-- C3 amended: a single frame's upload failure aborts the remaining
uploads — when the `put` of the first frame file in the listing rejects,
no further frame file is attempted and the job fails as a whole with a
500 error (the workspace is still cleaned up, and the source video is
not deleted). -/
theorem c3_upload_abort (env : ServerEnv) (n : Nat) (f : String)
    (rest : List String)
    (hjson : env.jsonOk = true) (hurl : env.url ≠ "")
    (hvalid : env.urlValid = true) (hnet : env.fetchThrows = false)
    (hok : responseOk env.fetchStatus = true)
    (hmk : env.mkdtempOk = true) (hwf : env.writeFileOk = true)
    (hff : env.ffmpeg = Except.ok n)
    (hsplit : env.readdirFiles.filter isFrameFile = f :: rest)
    (hfail : env.putResult (env.outputFolder ++ "/" ++ f) = Except.error ()) :
    POST env =
      (Response.err 500 ErrMsg.envError,
       ⟨1, 1, [env.outputFolder ++ "/" ++ f], 0⟩) := by
  simp [POST, hjson, hurl, hvalid, hnet, hok, hmk, hwf, hff, hsplit,
    uploadLoop, hfail]

/-- C3 amended witness: the abort behaviour at the concrete environment
of the counterexample. -/
theorem c3_upload_abort_witness :
    POST firstPutFailsEnv =
      (Response.err 500 ErrMsg.envError,
       ⟨1, 1, ["frames/frame_00001.jpg"], 0⟩) :=
  c3_upload_abort firstPutFailsEnv 2 "frame_00001.jpg" ["frame_00002.jpg"]
    rfl (by decide) rfl rfl rfl rfl rfl rfl (by decide) rfl

/-- C7 counterexample: a run over a source of non-zero duration (3s)
that produces zero frames is answered with a successful outcome carrying
an empty frame list — not with any fatal failure; no `EmptyResultError`
exists in the code. -/
theorem c7_counterexample :
    zeroFramesEnv.sourceDuration = 3 ∧
    zeroFramesEnv.readdirFiles = expectedListing 0 ∧
    (POST zeroFramesEnv).1 = Response.ok [] 0 1000000 "frames" 1 := by
  refine ⟨by decide, by decide, by decide⟩

/-- C7 amended: a run producing zero frames is accepted as a successful
outcome with an empty frame list regardless of the source's duration
(the route never inspects the duration), and a zero-duration source in
the client sampler likewise yields zero frames as a valid, non-error
outcome. -/
theorem c7_zero_frames_ok (env : ServerEnv) (n : Nat)
    (hjson : env.jsonOk = true) (hurl : env.url ≠ "")
    (hvalid : env.urlValid = true) (hnet : env.fetchThrows = false)
    (hok : responseOk env.fetchStatus = true)
    (hmk : env.mkdtempOk = true) (hwf : env.writeFileOk = true)
    (hff : env.ffmpeg = Except.ok n)
    (hempty : env.readdirFiles.filter isFrameFile = []) :
    (POST env).1 =
      Response.ok [] 0 env.videoSizeBytes env.outputFolder env.fps ∧
    ∀ (fps : ℚ) (maxFrames : Nat) (toBlob : Nat → Bool),
      extractVideoFrames 0 fps maxFrames toBlob = [] := by
  constructor
  · simp [POST, hjson, hurl, hvalid, hnet, hok, hmk, hwf, hff, hempty,
      uploadLoop]
  · intro fps maxFrames toBlob
    simp [extractVideoFrames, totalFramesToExtract, extractLoop]

/-- C7 amended witness: the zero-frame success at the concrete
environment of the counterexample. -/
theorem c7_zero_frames_ok_witness :
    (POST zeroFramesEnv).1 =
      Response.ok [] 0 zeroFramesEnv.videoSizeBytes
        zeroFramesEnv.outputFolder zeroFramesEnv.fps ∧
    ∀ (fps : ℚ) (maxFrames : Nat) (toBlob : Nat → Bool),
      extractVideoFrames 0 fps maxFrames toBlob = [] :=
  c7_zero_frames_ok zeroFramesEnv 0 rfl (by decide) rfl rfl rfl rfl rfl rfl
    (by decide)

/-! ## C8: storage keys and frame-list order -/

theorem uploadLoop_all_ok (putResult : String → Except Unit String)
    (outputFolder : String) (urlFn : String → String)
    (hput : ∀ k, putResult k = Except.ok (urlFn k)) :
    ∀ files : List String,
      uploadLoop putResult outputFolder files =
        (files.map (fun f => outputFolder ++ "/" ++ f),
         Except.ok (files.map (fun f => urlFn (outputFolder ++ "/" ++ f)))) := by
  intro files
  induction files with
  | nil => rfl
  | cons f rest ih => simp [uploadLoop, hput, ih]

/-- C8 counterexample: the listing order of the scratch directory is a
permutation of the written files that the route consumes as-is, so when
the listing reports frame 2 before frame 1 the returned frame URL list
is not sorted by ordinal. -/
theorem c8_counterexample :
    unsortedListingEnv.readdirFiles.Perm (expectedListing 2) ∧
    (POST unsortedListingEnv).1 =
      Response.ok ["frames/frame_00002.jpg", "frames/frame_00001.jpg"] 2
        1000000 "frames" 1 ∧
    (POST unsortedListingEnv).1 ≠
      Response.ok ["frames/frame_00001.jpg", "frames/frame_00002.jpg"] 2
        1000000 "frames" 1 := by
  refine ⟨by decide, by decide, by decide⟩

/-- C8 amended: every frame is persisted under a key of the shape
`{outputFolder}/frame_{ordinal:05d}.jpg` (zero-padded ordinal between 1
and the number of frames ffmpeg wrote), and the frame URL list of the
response corresponds one-to-one, in directory-listing order, to the
filtered frame files — it is sorted by ordinal exactly when the listing
is. -/
theorem c8_frame_keys (env : ServerEnv) (n : Nat) (urlFn : String → String)
    (hjson : env.jsonOk = true) (hurl : env.url ≠ "")
    (hvalid : env.urlValid = true) (hnet : env.fetchThrows = false)
    (hok : responseOk env.fetchStatus = true)
    (hmk : env.mkdtempOk = true) (hwf : env.writeFileOk = true)
    (hff : env.ffmpeg = Except.ok n)
    (hput : ∀ k, env.putResult k = Except.ok (urlFn k))
    (hperm : env.readdirFiles.Perm (expectedListing n)) :
    ((POST env).2.uploadedKeys =
       (env.readdirFiles.filter isFrameFile).map
         (fun f => env.outputFolder ++ "/" ++ f) ∧
     (POST env).1 =
       Response.ok
         ((env.readdirFiles.filter isFrameFile).map
           (fun f => urlFn (env.outputFolder ++ "/" ++ f)))
         (env.readdirFiles.filter isFrameFile).length
         env.videoSizeBytes env.outputFolder env.fps) ∧
    ∀ f ∈ env.readdirFiles.filter isFrameFile,
      ∃ i, 1 ≤ i ∧ i ≤ n ∧ f = frameFileName i := by
  have hloop := uploadLoop_all_ok env.putResult env.outputFolder urlFn hput
    (env.readdirFiles.filter isFrameFile)
  refine ⟨⟨?_, ?_⟩, ?_⟩
  · simp [POST, hjson, hurl, hvalid, hnet, hok, hmk, hwf, hff, hloop]
  · simp [POST, hjson, hurl, hvalid, hnet, hok, hmk, hwf, hff, hloop]
  · intro f hf
    have hmem := List.mem_filter.mp hf
    have hmem2 : f ∈ expectedListing n := hperm.mem_iff.mp hmem.1
    rcases List.mem_cons.mp hmem2 with h1 | h2
    · rw [h1] at hmem
      exact absurd hmem.2 (by decide)
    · rcases List.mem_map.mp h2 with ⟨i, hi, rfl⟩
      exact ⟨i + 1, by omega, by simpa using List.mem_range.mp hi, rfl⟩

/-- C8 amended witness: at a concrete run over a lexicographically
sorted listing of two frames, the keys are
`frames/frame_00001.jpg, frames/frame_00002.jpg` in order, the response
lists the corresponding URLs, and every frame file matches the
zero-padded pattern. -/
theorem c8_frame_keys_witness :
    ((POST goodEnv).2.uploadedKeys =
       (goodEnv.readdirFiles.filter isFrameFile).map
         (fun f => goodEnv.outputFolder ++ "/" ++ f) ∧
     (POST goodEnv).1 =
       Response.ok
         ((goodEnv.readdirFiles.filter isFrameFile).map
           (fun f => id (goodEnv.outputFolder ++ "/" ++ f)))
         (goodEnv.readdirFiles.filter isFrameFile).length
         goodEnv.videoSizeBytes goodEnv.outputFolder goodEnv.fps) ∧
    ∀ f ∈ goodEnv.readdirFiles.filter isFrameFile,
      ∃ i, 1 ≤ i ∧ i ≤ 2 ∧ f = frameFileName i :=
  c8_frame_keys goodEnv 2 id rfl (by decide) rfl rfl rfl rfl rfl rfl
    (fun _ => rfl) (by decide)

/-! ## C10: the client flow silently omits failed frame uploads -/

theorem clientUploadLoop_length (env : ClientEnv) :
    ∀ (l : List ExtractedFrame) (i : Nat),
      (clientUploadLoop env i l).length =
        ((List.range' i l.length).filter (fun j => env.uploadOk j)).length := by
  intro l
  induction l with
  | nil => intro i; rfl
  | cons f rest ih =>
    intro i
    rw [clientUploadLoop]
    by_cases h : env.uploadOk i = true
    · simp [h, List.range'_succ, ih]
    · simp [h, List.range'_succ, ih]

/-- C10: in the client flow, a frame whose upload response is not ok is
silently omitted — the stored `extractedFrames` list is exactly the
upload-loop result, `metadata.framesExtracted` equals the number of
frames whose upload succeeded (at most the number extracted), no error
is recorded, and `metadata.fps` is the constant `2` even though the
extraction itself ran at fps 30. -/
theorem c10_client_silent_omission (env : ClientEnv) :
    (clientProcessVideo env).extractedFrames =
      clientUploadLoop env 0 (extractVideoFrames env.duration 30 300 env.toBlob) ∧
    (clientProcessVideo env).metadata.framesExtracted =
      (clientProcessVideo env).extractedFrames.length ∧
    (clientProcessVideo env).extractedFrames.length =
      ((List.range (extractVideoFrames env.duration 30 300 env.toBlob).length).filter
        (fun j => env.uploadOk j)).length ∧
    (clientProcessVideo env).extractedFrames.length ≤
      (extractVideoFrames env.duration 30 300 env.toBlob).length ∧
    (clientProcessVideo env).metadata.fps = 2 ∧
    (clientProcessVideo env).error = none := by
  refine ⟨rfl, rfl, ?_, ?_, rfl, rfl⟩
  · rw [List.range_eq_range']
    exact clientUploadLoop_length env _ 0
  · calc (clientProcessVideo env).extractedFrames.length
        = ((List.range' 0 (extractVideoFrames env.duration 30 300
            env.toBlob).length).filter (fun j => env.uploadOk j)).length :=
          clientUploadLoop_length env _ 0
      _ ≤ (List.range' 0 (extractVideoFrames env.duration 30 300
            env.toBlob).length).length := List.length_filter_le _ _
      _ = (extractVideoFrames env.duration 30 300 env.toBlob).length := by simp
